import Mathlib

/-!
Verification development for the roadtrip-planner MCP demo repository.

The embedded code:
  * `get_directions` — the MCP tool in `src/mcpserver_plus/google_maps_server.py`
    (lines 20-167).  The external Routes API client (`client.compute_routes`) is
    modelled as an explicit function argument `client_compute_routes` from the
    built request to `Except String RoutesResponse` (`.error e` models a raised
    provider/transport exception with message `e`).  Python `list[i]` indexing
    that can raise `IndexError` is modelled with `Option`-returning lookups
    folded into `Except`, and the overall Python call is a `PyOutcome`:
    `.raised msg` models an uncaught exception escaping the function, and
    `.ret v` a normal return.  A Python return value is either a JSON string
    (`ToolReturn.pyStr`, produced by `json.dumps`) or a dict
    (`ToolReturn.pyDict`); the success dict's keys `description`,
    `duration_text`, `distance_text`, `encoded_polyline`, `ordered_waypoints`
    are the fields of `RouteResult`.
  * `after_tool_callback` — `src/agent/roadtrip_planner_mcp_search_callback/agent.py`
    lines 29-36.
  * `renderMapColumn` — the map display block (column 2) of
    `src/streamlit/app.py` lines 154-206, together with an embedding of the
    `polyline` library's decoder that it calls.
  * `buildMapUrl` — the Map URL Builder, modelled from the spec (no source for
    it exists under `src/`).

Coordinates are Python floats that the code only copies (never computes with),
so they are carried as `Int` here; the same holds for the scaled polyline
coordinates.  Python integer arithmetic is `Nat` arithmetic (all the involved
quantities — seconds, meters — are non-negative).
-/

/-- Coordinate pair as in `route.legs[i].start_location.lat_lng` /
`end_location.lat_lng` of the Routes API response. -/
structure LatLng where
  latitude : Int
  longitude : Int
deriving DecidableEq

/-- One leg of the returned route (`route.legs[i]`). -/
structure Leg where
  start_location : LatLng
  end_location : LatLng
deriving DecidableEq

/-- The first candidate route of the provider response, restricted to the
fields selected by the field mask in `get_directions`:
`routes.duration`, `routes.distanceMeters`, `routes.description`,
`routes.polyline.encodedPolyline`, `routes.optimizedIntermediateWaypointIndex`,
and the per-leg start/end locations.  `duration_seconds` is
`route.duration.seconds`, `encoded_polyline` is
`route.polyline.encoded_polyline`. -/
structure Route where
  duration_seconds : Nat
  distance_meters : Nat
  description : String
  encoded_polyline : String
  optimized_intermediate_waypoint_index : List Nat
  legs : List Leg
deriving DecidableEq

/-- The provider response: a list of candidate routes (`response.routes`). -/
structure RoutesResponse where
  routes : List Route
deriving DecidableEq

/-- One entry of the `ordered_waypoints` list built by `get_directions`: a
Python dict with keys `address`, `lat`, `lng`, `details`. -/
structure RouteWaypoint where
  address : String
  lat : Int
  lng : Int
  details : String
deriving DecidableEq

/-- The success dict returned by `get_directions` (its `result` variable):
keys `description`, `duration_text`, `distance_text`, `encoded_polyline`,
`ordered_waypoints`. -/
structure RouteResult where
  description : String
  duration_text : String
  distance_text : String
  encoded_polyline : String
  ordered_waypoints : List RouteWaypoint
deriving DecidableEq

/-- Modelled from the spec: the travel-mode enum of the external provider
client library (`google.maps.routing_v2.types.RouteTravelMode`), whose
library source is not part of this repository.  The spec's `TripRequest`
enumerates its members as DRIVE, BICYCLE, WALK, TWO_WHEELER, TRANSIT. -/
inductive RouteTravelMode where
  | DRIVE
  | BICYCLE
  | WALK
  | TWO_WHEELER
  | TRANSIT
deriving DecidableEq

/-- Python `str.upper()` on the ASCII strings that occur as travel modes
(`String.toUpper` itself is defined by well-founded recursion over byte
positions and does not evaluate in the kernel, so the character-list map is
used instead; both agree on ASCII input). -/
def pyUpper (s : String) : String :=
  String.mk (s.data.map Char.toUpper)

/-- Name lookup `RouteTravelMode[name]` of the Python enum; a failed lookup
(`KeyError` in Python) is `none`. -/
def RouteTravelMode.fromName (s : String) : Option RouteTravelMode :=
  if s = "DRIVE" then some RouteTravelMode.DRIVE
  else if s = "BICYCLE" then some RouteTravelMode.BICYCLE
  else if s = "WALK" then some RouteTravelMode.WALK
  else if s = "TWO_WHEELER" then some RouteTravelMode.TWO_WHEELER
  else if s = "TRANSIT" then some RouteTravelMode.TRANSIT
  else none

/-- The `ComputeRoutesRequest` built by `get_directions` (lines 72-84);
intermediates are kept as their address strings (the Python code wraps each
in `Waypoint(address=...)`). -/
structure ComputeRoutesRequest where
  origin : String
  destination : String
  intermediates : List String
  optimize_waypoint_order : Bool
  avoid_tolls : Bool
  avoid_ferries : Bool
  avoid_highways : Bool
  travel_mode : RouteTravelMode
deriving DecidableEq

/-- Building the provider request, mirroring lines 72-84 of
`google_maps_server.py`; `optimize_waypoint_order` is
`True if intermediates_wps else False`, i.e. list truthiness. -/
def mkComputeRoutesRequest (from_address to_address : String)
    (avoid_highways avoid_tolls avoid_ferries : Bool)
    (landmarks_to_visit : List String) (tm : RouteTravelMode) :
    ComputeRoutesRequest :=
  { origin := from_address
    destination := to_address
    intermediates := landmarks_to_visit
    optimize_waypoint_order := if landmarks_to_visit.isEmpty then false else true
    avoid_tolls := avoid_tolls
    avoid_ferries := avoid_ferries
    avoid_highways := avoid_highways
    travel_mode := tm }

/-- JSON string escaping of one character as done by Python `json.dumps` for
the characters that can occur here (quote and backslash; control-character
escapes are not exercised by any input in this development). -/
def escChar (c : Char) : List Char :=
  if c = '\"' then ['\\', '\"'] else if c = '\\' then ['\\', '\\'] else [c]

/-- JSON string escaping of a character list, character by character. -/
def escapeChars : List Char → List Char
  | [] => []
  | c :: cs => escChar c ++ escapeChars cs

/-- The string `json.dumps({"error": msg})` returned on every error path of
`get_directions`. -/
def jsonDumpsError (msg : String) : String :=
  String.mk (("\x7b\"error\": \"").data ++ escapeChars msg.data ++ ("\"\x7d").data)

/-- Duration formatting of `get_directions` lines 148-152:
`hours = duration_seconds // 3600`, `minutes = (duration_seconds % 3600) // 60`,
rendered by the f-string `f"{hours} hr {minutes} min"`. -/
def format_duration (duration_seconds : Nat) : String :=
  Nat.repr (duration_seconds / 3600) ++ " hr " ++
    Nat.repr (duration_seconds % 3600 / 60) ++ " min"

/-- The number of tenths of a kilometer after rounding, modelling Python
`round(distance_meters / 1000, 1)`: round half to even on the exact value
`distance_meters / 100` tenths.  (Python rounds the binary-float value of
`distance_meters / 1000`; on exact ties that is the same half-to-even rule
applied here to the exact rational.) -/
def roundTenthsKm (distance_meters : Nat) : Nat :=
  if distance_meters % 100 < 50 then distance_meters / 100
  else if 50 < distance_meters % 100 then distance_meters / 100 + 1
  else if distance_meters / 100 % 2 = 0 then distance_meters / 100
  else distance_meters / 100 + 1

/-- Distance formatting of `get_directions` lines 154-156:
`distance_km = round(distance_meters / 1000, 1)` rendered by
`f"{distance_km} km"` (a Python float always prints with its decimal digit,
e.g. `120.0`). -/
def format_distance (distance_meters : Nat) : String :=
  Nat.repr (roundTenthsKm distance_meters / 10) ++ "." ++
    Nat.repr (roundTenthsKm distance_meters % 10) ++ " km"

/-- The stops added by the loop at lines 113-127: for each `i`,
`original_index = optimized_intermediate_waypoint_index[i]`,
`original_address = landmarks_to_visit[original_index]`, coordinates from
`route.legs[i].end_location`, details `f"Stop {i+1}: {original_address}"`.
Out-of-range indexing models Python `IndexError`. -/
def optimizedStops (landmarks_to_visit : List String) (legs : List Leg) :
    Nat → List Nat → Except String (List RouteWaypoint)
  | _, [] => Except.ok []
  | i, original_index :: rest =>
    match landmarks_to_visit.get? original_index with
    | none => Except.error "IndexError: list index out of range"
    | some original_address =>
      match legs.get? i with
      | none => Except.error "IndexError: list index out of range"
      | some leg =>
        match optimizedStops landmarks_to_visit legs (i + 1) rest with
        | Except.error e => Except.error e
        | Except.ok tail =>
          Except.ok ({ address := original_address
                       lat := leg.end_location.latitude
                       lng := leg.end_location.longitude
                       details := "Stop " ++ Nat.repr (i + 1) ++ ": " ++ original_address } :: tail)

/-- The fallback loop at lines 128-137 (permutation absent but landmarks
present): stops in caller order, coordinates from `route.legs[i].end_location`. -/
def unoptimizedStops (legs : List Leg) :
    Nat → List String → Except String (List RouteWaypoint)
  | _, [] => Except.ok []
  | i, address :: rest =>
    match legs.get? i with
    | none => Except.error "IndexError: list index out of range"
    | some leg =>
      match unoptimizedStops legs (i + 1) rest with
      | Except.error e => Except.error e
      | Except.ok tail =>
        Except.ok ({ address := address
                     lat := leg.end_location.latitude
                     lng := leg.end_location.longitude
                     details := "Stop " ++ Nat.repr (i + 1) ++ ": " ++ address } :: tail)

/-- Selection between the two stop-building loops, mirroring the
`if route.optimized_intermediate_waypoint_index: ... elif landmarks_to_visit:`
chain (Python list truthiness = nonemptiness). -/
def stopsFor (landmarks_to_visit : List String) (route : Route) :
    Except String (List RouteWaypoint) :=
  if route.optimized_intermediate_waypoint_index.isEmpty = false then
    optimizedStops landmarks_to_visit route.legs 0
      route.optimized_intermediate_waypoint_index
  else if landmarks_to_visit.isEmpty = false then
    unoptimizedStops route.legs 0 landmarks_to_visit
  else
    Except.ok []

/-- Python `lst[0]` (raises `IndexError` when empty). -/
def pyFirst {α : Type} (l : List α) : Except String α :=
  match l.head? with
  | some a => Except.ok a
  | none => Except.error "IndexError: list index out of range"

/-- Python `lst[-1]` (raises `IndexError` when empty). -/
def pyLast {α : Type} (l : List α) : Except String α :=
  match l.getLast? with
  | some a => Except.ok a
  | none => Except.error "IndexError: list index out of range"

/-- The waypoint-list and summary construction of `get_directions`
lines 99-164 applied to the first candidate route: origin entry from
`route.legs[0].start_location` labeled "Starting Point", the intermediate
stops, destination entry from `route.legs[-1].end_location` labeled
"Destination", plus the formatted duration/distance and pass-through fields.
Evaluation order (origin indexing, stop loop, destination indexing) matches
the Python statement order for `IndexError` purposes. -/
def normalizeRoute (from_address to_address : String)
    (landmarks_to_visit : List String) (route : Route) :
    Except String RouteResult :=
  match pyFirst route.legs with
  | Except.error e => Except.error e
  | Except.ok firstLeg =>
    match stopsFor landmarks_to_visit route with
    | Except.error e => Except.error e
    | Except.ok stops =>
      match pyLast route.legs with
      | Except.error e => Except.error e
      | Except.ok lastLeg =>
        Except.ok
          { description := route.description
            duration_text := format_duration route.duration_seconds
            distance_text := format_distance route.distance_meters
            encoded_polyline := route.encoded_polyline
            ordered_waypoints :=
              { address := from_address
                lat := firstLeg.start_location.latitude
                lng := firstLeg.start_location.longitude
                details := "Starting Point" } ::
              (stops ++
                [{ address := to_address
                   lat := lastLeg.end_location.latitude
                   lng := lastLeg.end_location.longitude
                   details := "Destination" }]) }

/-- Outcome of a Python call: normal return or uncaught exception. -/
inductive PyOutcome (α : Type) where
  | raised (msg : String)
  | ret (val : α)
deriving DecidableEq

/-- Return value of `get_directions`: a JSON string on the error paths
(`json.dumps({"error": ...})`), a dict on success. -/
inductive ToolReturn where
  | pyStr (s : String)
  | pyDict (result : RouteResult)
deriving DecidableEq

/-- The `get_directions` tool (lines 20-167 of `google_maps_server.py`).
`client_compute_routes` is the external Routes client: the tool calls it on
the built `ComputeRoutesRequest`; `.error e` models the call raising an
exception with message `str(e) = e`. -/
def get_directions (from_address to_address : String)
    (avoid_highways avoid_tolls avoid_ferries : Bool)
    (landmarks_to_visit : List String) (travel_mode : String)
    (client_compute_routes : ComputeRoutesRequest → Except String RoutesResponse) :
    PyOutcome ToolReturn :=
  match RouteTravelMode.fromName (pyUpper travel_mode) with
  | none =>
    PyOutcome.ret (ToolReturn.pyStr (jsonDumpsError
      ("Invalid travel mode: " ++ travel_mode ++
        ". Use \x27DRIVE\x27, \x27BICYCLE\x27, \x27WALK\x27, or \x27TWO_WHEELER\x27.")))
  | some travel_mode_enum =>
    match client_compute_routes
        (mkComputeRoutesRequest from_address to_address avoid_highways
          avoid_tolls avoid_ferries landmarks_to_visit travel_mode_enum) with
    | Except.error e =>
      PyOutcome.ret (ToolReturn.pyStr (jsonDumpsError ("Error computing routes: " ++ e)))
    | Except.ok response =>
      match response.routes with
      | [] =>
        PyOutcome.ret (ToolReturn.pyStr (jsonDumpsError
          "No route found. Addresses may not have been valid. Please be more specific."))
      | route :: _ =>
        match normalizeRoute from_address to_address landmarks_to_visit route with
        | Except.error msg => PyOutcome.raised msg
        | Except.ok result => PyOutcome.ret (ToolReturn.pyDict result)

/-- The `after_tool_callback` of
`src/agent/roadtrip_planner_mcp_search_callback/agent.py` (lines 29-36):
`tool_context.state['map_data']` is overwritten with the tool response only
when that response is a dict containing both `encoded_polyline` and
`ordered_waypoints` keys; in this typed embedding every returned dict of
`get_directions` (a `RouteResult`) carries both keys, and a string response
is not a dict, so the state is left unchanged for it. -/
def after_tool_callback (tool_response : ToolReturn)
    (state_map_data : Option RouteResult) : Option RouteResult :=
  match tool_response with
  | ToolReturn.pyDict d => some d
  | ToolReturn.pyStr _ => state_map_data

/-- Zig-zag sign decoding of one polyline value: Python
`~(result >> 1) if result & 1 else result >> 1`. -/
def polylineSign (n : Nat) : Int :=
  if n % 2 = 1 then Int.negSucc (n / 2) else Int.ofNat (n / 2)

/-- The decoding loop of the `polyline` library that `src/streamlit/app.py`
calls, written as a character-at-a-time pass.  Each character contributes a
5-bit group (value `ord(c) - 63`, continuation bit 32) little-endian into the
current value; a character without the continuation bit completes the value.
Values alternate latitude delta / longitude delta (`pending` holds a
completed latitude delta while its longitude delta is being read), and each
completed pair extends the accumulated coordinates.  The library raises
`IndexError` exactly when the string ends in the middle of a value
(`shift ≠ 0`) or after a latitude delta whose longitude delta never started
(`pending = some`), because its inner `_trans` reader runs past the end of
the string.  Coordinates are kept in the scaled (times 1e5) integer domain,
since the rendering code never computes with them. -/
def decodeLoop : List Char → Option Nat → Nat → Nat → Int → Int →
    Except String (List (Int × Int))
  | [], pending, shift, _, _, _ =>
    if pending = none ∧ shift = 0 then Except.ok []
    else Except.error "IndexError: string index out of range"
  | c :: rest, pending, shift, acc, lat, lng =>
    if 32 ≤ c.toNat - 63 then
      decodeLoop rest pending (shift + 5) (acc + (c.toNat - 63) % 32 * 2 ^ shift) lat lng
    else
      match pending with
      | none =>
        decodeLoop rest (some (acc + (c.toNat - 63) % 32 * 2 ^ shift)) 0 0 lat lng
      | some dlat =>
        match decodeLoop rest none 0 0 (lat + polylineSign dlat)
            (lng + polylineSign (acc + (c.toNat - 63) % 32 * 2 ^ shift)) with
        | Except.error e => Except.error e
        | Except.ok pts =>
          Except.ok ((lat + polylineSign dlat,
            lng + polylineSign (acc + (c.toNat - 63) % 32 * 2 ^ shift)) :: pts)

/-- The `polyline.decode` call of `app.py` line 165 (empty input decodes to
the empty point list; a truncated encoding raises `IndexError`). -/
def polylineDecode (s : String) : Except String (List (Int × Int)) :=
  decodeLoop s.data none 0 0 0 0

/-- The `st.session_state.map_data` dict: keys `encoded_polyline` and
`ordered_waypoints` (set by the `display_map` tool, lines 39-54 of
`app.py`). -/
structure MapData where
  encoded_polyline : String
  ordered_waypoints : List RouteWaypoint
deriving DecidableEq

/-- What column 2 of the Streamlit page ends up displaying. -/
inductive RenderOutcome where
  /-- A folium map with the decoded route line and one marker per waypoint. -/
  | mapShown (points : List (Int × Int))
  /-- `st.error("Could not decode route.")` (decode returned no points). -/
  | decodeFailedMsg
  /-- `st.error(f"Error creating map: {e}")` from the `except Exception` arm. -/
  | errorMsg (e : String)
  /-- The default world map shown when no route is planned. -/
  | defaultMap
deriving DecidableEq

/-- The map display block of `src/streamlit/app.py` lines 154-206 (column 2):
takes the current `st.session_state.map_data` and returns what is displayed
together with the new value of `st.session_state.map_data`.  The
`try ... except Exception` wrapping means a decoder exception is confined to
this block (it cannot propagate out and crash the page) and is turned into
`st.error(...)` plus `st.session_state.map_data = None`; the
`else: st.error("Could not decode route.")` arm (decode succeeded with no
points) does not touch `map_data`. -/
def renderMapColumn (map_data : Option MapData) : RenderOutcome × Option MapData :=
  match map_data with
  | none => (RenderOutcome.defaultMap, none)
  | some d =>
    match polylineDecode d.encoded_polyline with
    | Except.error e => (RenderOutcome.errorMsg ("Error creating map: " ++ e), none)
    | Except.ok [] => (RenderOutcome.decodeFailedMsg, some d)
    | Except.ok (p :: ps) => (RenderOutcome.mapShown (p :: ps), some d)

/-- Unreserved URL characters (kept verbatim by the percent-encoder). -/
def isUnreserved (c : Char) : Bool :=
  c.isAlphanum || c == '-' || c == '_' || c == '.' || c == '~'

/-- Characters that may appear in a fully percent-encoded query value:
unreserved characters and the escape character itself (hex digits are
alphanumeric). -/
def urlQuerySafe (c : Char) : Bool :=
  isUnreserved c || c == '%'

/-- Uppercase hexadecimal digit for a value below 16 (total, defaulting
to '0'). -/
def hexDigit (n : Nat) : Char :=
  match n with
  | 0 => '0' | 1 => '1' | 2 => '2' | 3 => '3'
  | 4 => '4' | 5 => '5' | 6 => '6' | 7 => '7'
  | 8 => '8' | 9 => '9' | 10 => 'A' | 11 => 'B'
  | 12 => 'C' | 13 => 'D' | 14 => 'E' | 15 => 'F'
  | _ => '0'

/-- UTF-8 bytes of a character (as `Nat`s below 256). -/
def utf8Bytes (c : Char) : List Nat :=
  if c.toNat < 128 then [c.toNat]
  else if c.toNat < 2048 then
    [192 + c.toNat / 64, 128 + c.toNat % 64]
  else if c.toNat < 65536 then
    [224 + c.toNat / 4096, 128 + c.toNat / 64 % 64, 128 + c.toNat % 64]
  else
    [240 + c.toNat / 262144, 128 + c.toNat / 4096 % 64,
      128 + c.toNat / 64 % 64, 128 + c.toNat % 64]

/-- Percent-escapes for a byte list: each byte becomes `%HH`. -/
def pctBytes : List Nat → List Char
  | [] => []
  | b :: bs => '%' :: hexDigit (b / 16) :: hexDigit (b % 16) :: pctBytes bs

/-- Modelled from the spec: percent-encoding of one character for the Map URL
Builder (section 4.3; no Map URL Builder source exists under `src/`):
unreserved characters pass through, every other character is replaced by the
percent-escapes of its UTF-8 bytes. -/
def encChar (c : Char) : List Char :=
  if isUnreserved c then [c] else pctBytes (utf8Bytes c)

/-- Percent-encoding of a character list, character by character. -/
def encodeChars : List Char → List Char
  | [] => []
  | c :: cs => encChar c ++ encodeChars cs

/-- Percent-encoding of a string. -/
def percentEncode (s : String) : String :=
  String.mk (encodeChars s.data)

/-- Modelled from the spec: the Map URL Builder (section 4.3), a pure function
from origin, destination, ordered waypoint addresses and travel mode to a
deep-link URL whose query parameters are exactly `origin`, `destination`,
`waypoints` (the addresses joined by a pipe separator, then percent-encoded)
and `travelmode`, every value percent-encoded.  No Map URL Builder source
exists under `src/`; this follows the spec text. -/
def buildMapUrl (origin destination : String) (waypoints : List String)
    (travelmode : String) : String :=
  "https://www.google.com/maps/dir/?origin=" ++ percentEncode origin ++
    "&destination=" ++ percentEncode destination ++
    "&waypoints=" ++ percentEncode (String.intercalate "|" waypoints) ++
    "&travelmode=" ++ percentEncode travelmode

/-- Splitting a query string at `&` separators (Python
`query.split("&")`-style: separators delimit segments, an empty input gives
one empty segment). -/
def splitOnAmp : List Char → List (List Char)
  | [] => [[]]
  | c :: rest =>
    if c = '&' then [] :: splitOnAmp rest
    else
      match splitOnAmp rest with
      | [] => [[c]]
      | g :: gs => (c :: g) :: gs

/-- Splitting one query segment at its first `=` into key and value. -/
def splitKV : List Char → List Char × List Char
  | [] => ([], [])
  | c :: rest =>
    if c = '=' then ([], rest)
    else
      match splitKV rest with
      | (k, v) => (c :: k, v)

/-- The characters of the JSON error-object prefix common to every error
string returned by `get_directions`. -/
def errJsonPrefix : List Char := ("\x7b\"error\": \"").data

/-- The characters every invalid-travel-mode error string starts with. -/
def invalidModePrefix : List Char := ("\x7b\"error\": \"Invalid travel mode: ").data

/-- Recognizer for the invalid-travel-mode error return of `get_directions`. -/
def isInvalidModeError : PyOutcome ToolReturn → Bool
  | PyOutcome.ret (ToolReturn.pyStr s) => invalidModePrefix.isPrefixOf s.data
  | _ => false

/-- Number of `ordered_waypoints` entries of a successful (dict) return of
`get_directions`, `none` for a string return or an uncaught exception. -/
def returnedWaypointCount : PyOutcome ToolReturn → Option Nat
  | PyOutcome.ret (ToolReturn.pyDict r) => some r.ordered_waypoints.length
  | _ => none

/-- Substring test on character lists (used to state that an error message
contains a required phrase). -/
def hasSubstring (needle : List Char) : List Char → Bool
  | [] => needle.isPrefixOf []
  | c :: rest => needle.isPrefixOf (c :: rest) || hasSubstring needle rest

/-- Shorthand for building concrete coordinates in test inputs. -/
def mkLatLng (a b : Int) : LatLng := { latitude := a, longitude := b }

/-- Shorthand for building concrete legs in test inputs. -/
def mkLeg (a b c d : Int) : Leg :=
  { start_location := mkLatLng a b, end_location := mkLatLng c d }

/- ------------------------------------------------------------------ -/
/- Theorems.                                                           -/
/- ------------------------------------------------------------------ -/

theorem escapeChars_append (a b : List Char) :
    escapeChars (a ++ b) = escapeChars a ++ escapeChars b := by
  induction a with
  | nil => rfl
  | cons c cs ih => simp [escapeChars, ih]

theorem isPrefixOf_self_append (p t : List Char) : (p.isPrefixOf (p ++ t)) = true := by
  induction p with
  | nil => simp [List.isPrefixOf]
  | cons c cs ih => simp [List.isPrefixOf, ih]

theorem isPrefixOf_append_of_le (p a b : List Char) (h : p.length ≤ a.length) :
    (p.isPrefixOf (a ++ b)) = p.isPrefixOf a := by
  induction p generalizing a with
  | nil => simp [List.isPrefixOf]
  | cons c cs ih =>
    cases a with
    | nil => simp at h
    | cons x xs =>
      simp only [List.cons_append, List.isPrefixOf, List.append_eq]
      rw [ih xs (by simpa using h)]

theorem jsonDumpsError_data (msg : String) :
    (jsonDumpsError msg).data =
      errJsonPrefix ++ (escapeChars msg.data ++ ("\"\x7d").data) := by
  simp [jsonDumpsError, errJsonPrefix, List.append_assoc]

theorem errJsonPrefix_prefixOf (msg : String) :
    errJsonPrefix.isPrefixOf (jsonDumpsError msg).data = true := by
  rw [jsonDumpsError_data]
  exact isPrefixOf_self_append _ _

theorem invalidModePrefix_prefixOf (tail : String) :
    invalidModePrefix.isPrefixOf
      (jsonDumpsError ("Invalid travel mode: " ++ tail)).data = true := by
  rw [jsonDumpsError_data, String.data_append, escapeChars_append]
  have h1 : escapeChars ("Invalid travel mode: ").data = ("Invalid travel mode: ").data := by
    decide
  rw [h1]
  have h2 : errJsonPrefix ++ (("Invalid travel mode: ").data ++
      (escapeChars tail.data ++ ("\"\x7d").data)) =
      invalidModePrefix ++ (escapeChars tail.data ++ ("\"\x7d").data) := by
    rw [← List.append_assoc]
    congr 1
  rw [List.append_assoc, h2]
  exact isPrefixOf_self_append _ _

theorem invalidModePrefix_not_prefixOf_provider (e : String) :
    invalidModePrefix.isPrefixOf
      (jsonDumpsError ("Error computing routes: " ++ e)).data = false := by
  rw [jsonDumpsError_data, String.data_append, escapeChars_append]
  have h1 : escapeChars ("Error computing routes: ").data = ("Error computing routes: ").data := by
    decide
  rw [h1]
  have h2 : errJsonPrefix ++ (("Error computing routes: ").data ++
      (escapeChars e.data ++ ("\"\x7d").data)) =
      (errJsonPrefix ++ ("Error computing routes: ").data) ++
        (escapeChars e.data ++ ("\"\x7d").data) := by
    rw [List.append_assoc]
  rw [List.append_assoc, h2]
  rw [isPrefixOf_append_of_le _ _ _ (by decide)]
  decide

theorem optimizedStops_ok (lmv : List String) (legs : List Leg) :
    ∀ (perm : List Nat) (i : Nat),
      (∀ oi ∈ perm, oi < lmv.length) → i + perm.length ≤ legs.length →
      ∃ ws, optimizedStops lmv legs i perm = Except.ok ws ∧ ws.length = perm.length := by
  intro perm
  induction perm with
  | nil => intro i _ _; exact ⟨[], rfl, rfl⟩
  | cons oi rest ih =>
    intro i hvalid hlen
    have hoi : oi < lmv.length := hvalid oi (List.mem_cons_self _ _)
    have hi : i < legs.length := by simp [List.length_cons] at hlen; omega
    obtain ⟨tail, htail, htlen⟩ := ih (i + 1)
      (fun x hx => hvalid x (List.mem_cons_of_mem _ hx))
      (by simp [List.length_cons] at hlen ⊢; omega)
    refine ⟨{ address := lmv.get ⟨oi, hoi⟩
              lat := (legs.get ⟨i, hi⟩).end_location.latitude
              lng := (legs.get ⟨i, hi⟩).end_location.longitude
              details := "Stop " ++ Nat.repr (i + 1) ++ ": " ++ lmv.get ⟨oi, hoi⟩ } :: tail,
      ?_, ?_⟩
    · simp only [optimizedStops, List.get?_eq_get hoi, List.get?_eq_get hi, htail]
    · simp [htlen]

theorem unoptimizedStops_ok (legs : List Leg) :
    ∀ (addrs : List String) (i : Nat), i + addrs.length ≤ legs.length →
      ∃ ws, unoptimizedStops legs i addrs = Except.ok ws ∧ ws.length = addrs.length := by
  intro addrs
  induction addrs with
  | nil => intro i _; exact ⟨[], rfl, rfl⟩
  | cons a rest ih =>
    intro i hlen
    have hi : i < legs.length := by simp [List.length_cons] at hlen; omega
    obtain ⟨tail, htail, htlen⟩ := ih (i + 1) (by simp [List.length_cons] at hlen ⊢; omega)
    refine ⟨{ address := a
              lat := (legs.get ⟨i, hi⟩).end_location.latitude
              lng := (legs.get ⟨i, hi⟩).end_location.longitude
              details := "Stop " ++ Nat.repr (i + 1) ++ ": " ++ a } :: tail, ?_, ?_⟩
    · simp only [unoptimizedStops, List.get?_eq_get hi, htail]
    · simp [htlen]

theorem normalizeRoute_ok (fa ta : String) (lmv : List String) (route : Route)
    (l0 ll : Leg) (stops : List RouteWaypoint)
    (h0 : route.legs.head? = some l0) (hl : route.legs.getLast? = some ll)
    (hs : stopsFor lmv route = Except.ok stops) :
    normalizeRoute fa ta lmv route = Except.ok
      { description := route.description
        duration_text := format_duration route.duration_seconds
        distance_text := format_distance route.distance_meters
        encoded_polyline := route.encoded_polyline
        ordered_waypoints :=
          { address := fa
            lat := l0.start_location.latitude
            lng := l0.start_location.longitude
            details := "Starting Point" } ::
          (stops ++
            [{ address := ta
               lat := ll.end_location.latitude
               lng := ll.end_location.longitude
               details := "Destination" }]) } := by
  simp [normalizeRoute, pyFirst, pyLast, h0, hl, hs]

theorem get_directions_route (from_address to_address : String)
    (avoid_highways avoid_tolls avoid_ferries : Bool)
    (landmarks_to_visit : List String) (travel_mode : String)
    (client_compute_routes : ComputeRoutesRequest → Except String RoutesResponse)
    (tme : RouteTravelMode) (resp : RoutesResponse) (route : Route) (rest : List Route)
    (h1 : RouteTravelMode.fromName (pyUpper travel_mode) = some tme)
    (h2 : client_compute_routes (mkComputeRoutesRequest from_address to_address
      avoid_highways avoid_tolls avoid_ferries landmarks_to_visit tme) = Except.ok resp)
    (h3 : resp.routes = route :: rest) :
    get_directions from_address to_address avoid_highways avoid_tolls avoid_ferries
      landmarks_to_visit travel_mode client_compute_routes =
    match normalizeRoute from_address to_address landmarks_to_visit route with
    | Except.error msg => PyOutcome.raised msg
    | Except.ok result => PyOutcome.ret (ToolReturn.pyDict result) := by
  simp [get_directions, h1, h2, h3]

/-- C10: the return type of `get_directions` is asymmetric — apart from the
uncaught-exception possibility, every normal return is either a dict
(`RouteResult`, whose fields are exactly `description`, `duration_text`,
`distance_text`, `encoded_polyline`, `ordered_waypoints`) or a JSON-encoded
string starting with the object prefix `{"error": "`, so no single uniform
structured shape covers success and failure. -/
theorem C10_asymmetric_return (from_address to_address : String)
    (avoid_highways avoid_tolls avoid_ferries : Bool)
    (landmarks_to_visit : List String) (travel_mode : String)
    (client_compute_routes : ComputeRoutesRequest → Except String RoutesResponse) :
    (∃ e, get_directions from_address to_address avoid_highways avoid_tolls avoid_ferries
        landmarks_to_visit travel_mode client_compute_routes = PyOutcome.raised e)
    ∨ (∃ rr, get_directions from_address to_address avoid_highways avoid_tolls avoid_ferries
        landmarks_to_visit travel_mode client_compute_routes = PyOutcome.ret (ToolReturn.pyDict rr))
    ∨ (∃ s, get_directions from_address to_address avoid_highways avoid_tolls avoid_ferries
        landmarks_to_visit travel_mode client_compute_routes = PyOutcome.ret (ToolReturn.pyStr s)
        ∧ errJsonPrefix.isPrefixOf s.data = true) := by
  cases hfn : RouteTravelMode.fromName (pyUpper travel_mode) with
  | none =>
    refine Or.inr (Or.inr ⟨jsonDumpsError ("Invalid travel mode: " ++ travel_mode ++
      ". Use \x27DRIVE\x27, \x27BICYCLE\x27, \x27WALK\x27, or \x27TWO_WHEELER\x27."),
      ?_, errJsonPrefix_prefixOf _⟩)
    simp [get_directions, hfn]
  | some tme =>
    cases hcl : client_compute_routes (mkComputeRoutesRequest from_address to_address
        avoid_highways avoid_tolls avoid_ferries landmarks_to_visit tme) with
    | error e =>
      refine Or.inr (Or.inr ⟨jsonDumpsError ("Error computing routes: " ++ e), ?_,
        errJsonPrefix_prefixOf _⟩)
      simp [get_directions, hfn, hcl]
    | ok response =>
      cases hr : response.routes with
      | nil =>
        refine Or.inr (Or.inr ⟨jsonDumpsError
          "No route found. Addresses may not have been valid. Please be more specific.", ?_,
          errJsonPrefix_prefixOf _⟩)
        simp [get_directions, hfn, hcl, hr]
      | cons route rest =>
        cases hn : normalizeRoute from_address to_address landmarks_to_visit route with
        | error msg =>
          refine Or.inl ⟨msg, ?_⟩
          simp [get_directions, hfn, hcl, hr, hn]
        | ok result =>
          refine Or.inr (Or.inl ⟨result, ?_⟩)
          simp [get_directions, hfn, hcl, hr, hn]

/-- C7 (amended): `get_directions` validates the travel mode after
uppercasing it — when `travel_mode.upper()` is not a member of the enum the
invalid-travel-mode error is returned and the provider is never called (the
result is the same for every provider), and when `travel_mode.upper()` is a
member no invalid-travel-mode error is ever produced.  (The claim as frozen
quantifies over the raw string: it fails for e.g. `"drive"`, which is not in
the enumerated set but is accepted.) -/
theorem C7_travel_mode_validation (from_address to_address : String)
    (avoid_highways avoid_tolls avoid_ferries : Bool)
    (landmarks_to_visit : List String) (travel_mode : String) :
    (RouteTravelMode.fromName (pyUpper travel_mode) = none →
      ∀ client1 client2 : ComputeRoutesRequest → Except String RoutesResponse,
        get_directions from_address to_address avoid_highways avoid_tolls avoid_ferries
          landmarks_to_visit travel_mode client1 =
        get_directions from_address to_address avoid_highways avoid_tolls avoid_ferries
          landmarks_to_visit travel_mode client2
        ∧ isInvalidModeError (get_directions from_address to_address avoid_highways
            avoid_tolls avoid_ferries landmarks_to_visit travel_mode client1) = true)
    ∧ (RouteTravelMode.fromName (pyUpper travel_mode) ≠ none →
      ∀ client : ComputeRoutesRequest → Except String RoutesResponse,
        isInvalidModeError (get_directions from_address to_address avoid_highways
          avoid_tolls avoid_ferries landmarks_to_visit travel_mode client) = false) := by
  constructor
  · intro hfn client1 client2
    constructor
    · simp [get_directions, hfn]
    · simp only [get_directions, hfn, isInvalidModeError]
      exact invalidModePrefix_prefixOf _
  · intro hfn client
    obtain ⟨tme, htme⟩ := Option.ne_none_iff_exists'.mp hfn
    cases hcl : client (mkComputeRoutesRequest from_address to_address
        avoid_highways avoid_tolls avoid_ferries landmarks_to_visit tme) with
    | error e =>
      simp only [get_directions, htme, hcl, isInvalidModeError]
      exact invalidModePrefix_not_prefixOf_provider e
    | ok response =>
      cases hr : response.routes with
      | nil =>
        simp only [get_directions, htme, hcl, hr, isInvalidModeError]
        decide
      | cons route rest =>
        cases hn : normalizeRoute from_address to_address landmarks_to_visit route with
        | error msg => simp [get_directions, htme, hcl, hr, hn, isInvalidModeError]
        | ok result => simp [get_directions, htme, hcl, hr, hn, isInvalidModeError]

/-- C7 counterexample: the travel mode `"drive"` is not in the enumerated set
`{DRIVE, BICYCLE, WALK, TWO_WHEELER, TRANSIT}`, yet `get_directions` does not
fail with an invalid-travel-mode error and does call the provider (the
provider's error is what comes back), refuting the claim as frozen. -/
theorem C7_counterexample :
    (("drive" ∈ ["DRIVE", "BICYCLE", "WALK", "TWO_WHEELER", "TRANSIT"]) = False)
    ∧ get_directions "O" "D" false false false [] "drive"
        (fun _ => Except.error "boom") =
      PyOutcome.ret (ToolReturn.pyStr (jsonDumpsError "Error computing routes: boom"))
    ∧ isInvalidModeError (get_directions "O" "D" false false false [] "drive"
        (fun _ => Except.error "boom")) = false := by
  refine ⟨by simp, by decide, by decide⟩

/-- C7 witness: concrete instances of both directions of the amended claim —
`"flying"` (uppercased `"FLYING"`, not in the enum) produces the
invalid-travel-mode error, `"drive"` (uppercased `"DRIVE"`, in the enum)
does not. -/
theorem C7_travel_mode_validation_witness :
    isInvalidModeError (get_directions "O" "D" false false false [] "flying"
      (fun _ => Except.error "boom")) = true
    ∧ isInvalidModeError (get_directions "O" "D" false false false [] "drive"
      (fun _ => Except.error "boom")) = false :=
  ⟨((C7_travel_mode_validation "O" "D" false false false [] "flying").1 (by decide)
      (fun _ => Except.error "boom") (fun _ => Except.error "boom")).2,
   (C7_travel_mode_validation "O" "D" false false false [] "drive").2 (by decide)
      (fun _ => Except.error "boom")⟩

/-- C4: when the provider returns zero candidate routes, `get_directions`
returns (does not raise) the `NoRouteFound`-style JSON error string, whose
message contains the remediation "Please be more specific", and feeding that
string response through `after_tool_callback` leaves the stored map state
unchanged (the callback only overwrites state for dict responses). -/
theorem C4_no_route_found (from_address to_address : String)
    (avoid_highways avoid_tolls avoid_ferries : Bool)
    (landmarks_to_visit : List String) (travel_mode : String) (tme : RouteTravelMode)
    (client_compute_routes : ComputeRoutesRequest → Except String RoutesResponse)
    (resp : RoutesResponse) (state_map_data : Option RouteResult)
    (h1 : RouteTravelMode.fromName (pyUpper travel_mode) = some tme)
    (h2 : client_compute_routes (mkComputeRoutesRequest from_address to_address
      avoid_highways avoid_tolls avoid_ferries landmarks_to_visit tme) = Except.ok resp)
    (h3 : resp.routes = []) :
    get_directions from_address to_address avoid_highways avoid_tolls avoid_ferries
      landmarks_to_visit travel_mode client_compute_routes =
      PyOutcome.ret (ToolReturn.pyStr (jsonDumpsError
        "No route found. Addresses may not have been valid. Please be more specific."))
    ∧ hasSubstring ("Please be more specific").data (jsonDumpsError
        "No route found. Addresses may not have been valid. Please be more specific.").data
        = true
    ∧ after_tool_callback (ToolReturn.pyStr (jsonDumpsError
        "No route found. Addresses may not have been valid. Please be more specific."))
        state_map_data = state_map_data := by
  refine ⟨?_, by decide, rfl⟩
  simp [get_directions, h1, h2, h3]

/-- C4 witness: the no-route error at a concrete input, and the callback
leaving a concrete stored map state unchanged. -/
theorem C4_no_route_found_witness :
    get_directions "O" "D" false false false [] "DRIVE"
      (fun _ => Except.ok { routes := [] }) =
      PyOutcome.ret (ToolReturn.pyStr (jsonDumpsError
        "No route found. Addresses may not have been valid. Please be more specific."))
    ∧ after_tool_callback (ToolReturn.pyStr (jsonDumpsError
        "No route found. Addresses may not have been valid. Please be more specific."))
        (some { description := "d", duration_text := "t", distance_text := "k"
                encoded_polyline := "p", ordered_waypoints := [] }) =
        (some { description := "d", duration_text := "t", distance_text := "k"
                encoded_polyline := "p", ordered_waypoints := [] }) :=
  ⟨(C4_no_route_found "O" "D" false false false [] "DRIVE" RouteTravelMode.DRIVE
      (fun _ => Except.ok { routes := [] }) { routes := [] } none (by decide) rfl rfl).1,
   (C4_no_route_found "O" "D" false false false [] "DRIVE" RouteTravelMode.DRIVE
      (fun _ => Except.ok { routes := [] }) { routes := [] }
      (some { description := "d", duration_text := "t", distance_text := "k"
              encoded_polyline := "p", ordered_waypoints := [] })
      (by decide) rfl rfl).2.2⟩

theorem getLast?_cons_append_singleton {α : Type} (a b : α) (l : List α) :
    (a :: (l ++ [b])).getLast? = some b := by
  rw [← List.cons_append, List.getLast?_concat]

theorem gd_success_shape (from_address to_address : String)
    (avoid_highways avoid_tolls avoid_ferries : Bool)
    (landmarks_to_visit : List String) (travel_mode : String)
    (client_compute_routes : ComputeRoutesRequest → Except String RoutesResponse)
    (tme : RouteTravelMode) (resp : RoutesResponse) (route : Route) (rest : List Route)
    (l0 ll : Leg) (stops : List RouteWaypoint)
    (h1 : RouteTravelMode.fromName (pyUpper travel_mode) = some tme)
    (h2 : client_compute_routes (mkComputeRoutesRequest from_address to_address
      avoid_highways avoid_tolls avoid_ferries landmarks_to_visit tme) = Except.ok resp)
    (h3 : resp.routes = route :: rest)
    (h7 : route.legs.head? = some l0) (h8 : route.legs.getLast? = some ll)
    (hst : stopsFor landmarks_to_visit route = Except.ok stops) :
    get_directions from_address to_address avoid_highways avoid_tolls avoid_ferries
      landmarks_to_visit travel_mode client_compute_routes =
    PyOutcome.ret (ToolReturn.pyDict
      { description := route.description
        duration_text := format_duration route.duration_seconds
        distance_text := format_distance route.distance_meters
        encoded_polyline := route.encoded_polyline
        ordered_waypoints :=
          { address := from_address
            lat := l0.start_location.latitude
            lng := l0.start_location.longitude
            details := "Starting Point" } ::
          (stops ++
            [{ address := to_address
               lat := ll.end_location.latitude
               lng := ll.end_location.longitude
               details := "Destination" }]) }) := by
  rw [get_directions_route from_address to_address avoid_highways avoid_tolls avoid_ferries
    landmarks_to_visit travel_mode client_compute_routes tme resp route rest h1 h2 h3]
  rw [normalizeRoute_ok from_address to_address landmarks_to_visit route l0 ll stops h7 h8 hst]

theorem stopsFor_of_perm_ne (lmv : List String) (route : Route)
    (h : route.optimized_intermediate_waypoint_index ≠ []) :
    stopsFor lmv route =
      optimizedStops lmv route.legs 0 route.optimized_intermediate_waypoint_index := by
  unfold stopsFor
  rw [if_pos (List.isEmpty_eq_false.mpr h)]

theorem stopsFor_ok (lmv : List String) (route : Route)
    (h4 : route.legs.length = lmv.length + 1)
    (h5 : route.optimized_intermediate_waypoint_index = [] ∨
      route.optimized_intermediate_waypoint_index.length = lmv.length)
    (h6 : ∀ oi ∈ route.optimized_intermediate_waypoint_index, oi < lmv.length) :
    ∃ stops, stopsFor lmv route = Except.ok stops ∧ stops.length = lmv.length := by
  by_cases hp : route.optimized_intermediate_waypoint_index = []
  · unfold stopsFor
    rw [hp]
    rw [if_neg (by simp)]
    by_cases hl : lmv.isEmpty = false
    · rw [if_pos hl]
      exact unoptimizedStops_ok route.legs lmv 0 (by omega)
    · rw [if_neg hl]
      have hnil : lmv = [] := by
        cases hlv : lmv with
        | nil => rfl
        | cons a as => rw [hlv] at hl; simp at hl
      exact ⟨[], rfl, by simp [hnil]⟩
  · rcases h5 with h5 | h5
    · exact absurd h5 hp
    · rw [stopsFor_of_perm_ne lmv route hp]
      obtain ⟨ws, hws, hlen⟩ := optimizedStops_ok lmv route.legs
        route.optimized_intermediate_waypoint_index 0 h6 (by omega)
      exact ⟨ws, hws, by rw [hlen, h5]⟩

/-- C1: with landmarks `[A, B, C]` and provider permutation `[2, 0, 1]`, the
normalization in `get_directions` produces the intermediate stops
`"Stop 1: C"`, `"Stop 2: A"`, `"Stop 3: B"` in that order; the stop at
optimized position `i` carries the address `landmarks_to_visit[permutation[i]]`
and the coordinates of the end location of leg `i` (the provider's `i`-th
intermediate leg), not the coordinates of the caller's original positions.
`A`, `B`, `C` are arbitrary and may be equal, so duplicate landmark addresses
resolve to distinct stops — the lookup is by index, not string equality. -/
theorem C1_normalizer_permutation (A B C from_address to_address : String)
    (l0 l1 l2 l3 : Leg) :
    get_directions from_address to_address false false false [A, B, C] "DRIVE"
      (fun _ => Except.ok { routes := [{ duration_seconds := 5425
                                         distance_meters := 123456
                                         description := "desc"
                                         encoded_polyline := "poly"
                                         optimized_intermediate_waypoint_index := [2, 0, 1]
                                         legs := [l0, l1, l2, l3] }] }) =
    PyOutcome.ret (ToolReturn.pyDict
      { description := "desc"
        duration_text := "1 hr 30 min"
        distance_text := "123.5 km"
        encoded_polyline := "poly"
        ordered_waypoints :=
          [{ address := from_address, lat := l0.start_location.latitude
             lng := l0.start_location.longitude, details := "Starting Point" },
           { address := C, lat := l0.end_location.latitude
             lng := l0.end_location.longitude, details := "Stop 1: " ++ C },
           { address := A, lat := l1.end_location.latitude
             lng := l1.end_location.longitude, details := "Stop 2: " ++ A },
           { address := B, lat := l2.end_location.latitude
             lng := l2.end_location.longitude, details := "Stop 3: " ++ B },
           { address := to_address, lat := l3.end_location.latitude
             lng := l3.end_location.longitude, details := "Destination" }] }) := by
  have hm : RouteTravelMode.fromName (pyUpper "DRIVE") = some RouteTravelMode.DRIVE := by
    decide
  have hn : normalizeRoute from_address to_address [A, B, C]
      { duration_seconds := 5425, distance_meters := 123456, description := "desc"
        encoded_polyline := "poly", optimized_intermediate_waypoint_index := [2, 0, 1]
        legs := [l0, l1, l2, l3] } =
      Except.ok
        { description := "desc", duration_text := "1 hr 30 min", distance_text := "123.5 km"
          encoded_polyline := "poly"
          ordered_waypoints :=
            [{ address := from_address, lat := l0.start_location.latitude
               lng := l0.start_location.longitude, details := "Starting Point" },
             { address := C, lat := l0.end_location.latitude
               lng := l0.end_location.longitude, details := "Stop 1: " ++ C },
             { address := A, lat := l1.end_location.latitude
               lng := l1.end_location.longitude, details := "Stop 2: " ++ A },
             { address := B, lat := l2.end_location.latitude
               lng := l2.end_location.longitude, details := "Stop 3: " ++ B },
             { address := to_address, lat := l3.end_location.latitude
               lng := l3.end_location.longitude, details := "Destination" }] } := by
    unfold normalizeRoute
    norm_num [pyFirst, pyLast, stopsFor, optimizedStops, format_duration, format_distance,
      roundTenthsKm]
    exact ⟨rfl, rfl, rfl, rfl, rfl⟩
  simp [get_directions, hm, hn]

/-- C2 counterexample: with 3 landmarks but a provider permutation of
length 2, `get_directions` does not fail with any error — it returns a
success dict with `2 + 2 = 4` ordered waypoints (2 intermediate stops for 3
requested landmarks), i.e. it silently truncates, refuting the claim that a
`MalformedProviderResponse` failure occurs. -/
theorem C2_counterexample :
    returnedWaypointCount (get_directions "O" "D" false false false ["A", "B", "C"] "DRIVE"
      (fun _ => Except.ok { routes := [{ duration_seconds := 100
                                         distance_meters := 1000
                                         description := "d"
                                         encoded_polyline := "p"
                                         optimized_intermediate_waypoint_index := [1, 0]
                                         legs := [mkLeg 1 2 3 4, mkLeg 5 6 7 8,
                                           mkLeg 9 10 11 12] }] })) = some 4 := by
  decide

/-- C2 (amended): `get_directions` performs no permutation-length check at
all — whenever the provider returns a nonempty permutation whose entries
index into the landmark list and whose length is at most the number of legs,
the call succeeds with exactly one stop per permutation entry
(`permutation.length + 2` waypoints in total), so a short permutation
silently truncates the stop list and no `MalformedProviderResponse`-style
error exists in the code. -/
theorem C2_silent_truncation (from_address to_address : String)
    (avoid_highways avoid_tolls avoid_ferries : Bool)
    (landmarks_to_visit : List String) (travel_mode : String)
    (client_compute_routes : ComputeRoutesRequest → Except String RoutesResponse)
    (tme : RouteTravelMode) (resp : RoutesResponse) (route : Route) (rest : List Route)
    (h1 : RouteTravelMode.fromName (pyUpper travel_mode) = some tme)
    (h2 : client_compute_routes (mkComputeRoutesRequest from_address to_address
      avoid_highways avoid_tolls avoid_ferries landmarks_to_visit tme) = Except.ok resp)
    (h3 : resp.routes = route :: rest)
    (h4 : route.optimized_intermediate_waypoint_index ≠ [])
    (h5 : ∀ oi ∈ route.optimized_intermediate_waypoint_index, oi < landmarks_to_visit.length)
    (h6 : route.optimized_intermediate_waypoint_index.length ≤ route.legs.length) :
    returnedWaypointCount (get_directions from_address to_address avoid_highways avoid_tolls
      avoid_ferries landmarks_to_visit travel_mode client_compute_routes) =
      some (route.optimized_intermediate_waypoint_index.length + 2) := by
  have hlegs : route.legs ≠ [] := by
    intro hc
    rw [hc] at h6
    simp at h6
    exact h4 h6
  obtain ⟨stops, hst, hstlen⟩ := optimizedStops_ok landmarks_to_visit route.legs
    route.optimized_intermediate_waypoint_index 0 h5 (by omega)
  rw [gd_success_shape from_address to_address avoid_highways avoid_tolls avoid_ferries
    landmarks_to_visit travel_mode client_compute_routes tme resp route rest
    (route.legs.head hlegs) (route.legs.getLast hlegs) stops h1 h2 h3
    (List.head?_eq_head hlegs) (List.getLast?_eq_getLast _ hlegs)
    ((stopsFor_of_perm_ne landmarks_to_visit route h4).trans hst)]
  simp [returnedWaypointCount, hstlen]

/-- C2 witness: the amended claim instantiated at the counterexample input —
3 landmarks, permutation `[1, 0]`, result has `2 + 2` waypoints. -/
theorem C2_silent_truncation_witness :
    returnedWaypointCount (get_directions "O" "D" false false false ["A", "B", "C"] "DRIVE"
      (fun _ => Except.ok { routes := [{ duration_seconds := 100
                                         distance_meters := 1000
                                         description := "d"
                                         encoded_polyline := "p"
                                         optimized_intermediate_waypoint_index := [1, 0]
                                         legs := [mkLeg 1 2 3 4, mkLeg 5 6 7 8,
                                           mkLeg 9 10 11 12] }] })) =
      some (([1, 0] : List Nat).length + 2) :=
  C2_silent_truncation "O" "D" false false false ["A", "B", "C"] "DRIVE" _
    RouteTravelMode.DRIVE _ _ [] (by decide) rfl rfl (by decide) (by decide) (by decide)

/-- C3: for a successful `get_directions` call with `N` landmarks and a
well-formed provider response (`N + 1` legs; permutation empty or of length
`N` with in-range entries), `ordered_waypoints` has exactly `N + 2` entries;
the first entry pairs the caller-supplied origin address with the route's
origin coordinates (`legs[0].start_location`) and details "Starting Point",
and the last pairs the caller-supplied destination address with the route's
destination coordinates (`legs[-1].end_location`) and details
"Destination". -/
theorem C3_waypoint_shape (from_address to_address : String)
    (avoid_highways avoid_tolls avoid_ferries : Bool)
    (landmarks_to_visit : List String) (travel_mode : String)
    (client_compute_routes : ComputeRoutesRequest → Except String RoutesResponse)
    (tme : RouteTravelMode) (resp : RoutesResponse) (route : Route) (rest : List Route)
    (l0 ll : Leg)
    (h1 : RouteTravelMode.fromName (pyUpper travel_mode) = some tme)
    (h2 : client_compute_routes (mkComputeRoutesRequest from_address to_address
      avoid_highways avoid_tolls avoid_ferries landmarks_to_visit tme) = Except.ok resp)
    (h3 : resp.routes = route :: rest)
    (h4 : route.legs.length = landmarks_to_visit.length + 1)
    (h5 : route.optimized_intermediate_waypoint_index = [] ∨
      route.optimized_intermediate_waypoint_index.length = landmarks_to_visit.length)
    (h6 : ∀ oi ∈ route.optimized_intermediate_waypoint_index, oi < landmarks_to_visit.length)
    (h7 : route.legs.head? = some l0) (h8 : route.legs.getLast? = some ll) :
    ∃ rr, get_directions from_address to_address avoid_highways avoid_tolls avoid_ferries
        landmarks_to_visit travel_mode client_compute_routes =
        PyOutcome.ret (ToolReturn.pyDict rr)
      ∧ rr.ordered_waypoints.length = landmarks_to_visit.length + 2
      ∧ rr.ordered_waypoints.head? = some
          { address := from_address, lat := l0.start_location.latitude
            lng := l0.start_location.longitude, details := "Starting Point" }
      ∧ rr.ordered_waypoints.getLast? = some
          { address := to_address, lat := ll.end_location.latitude
            lng := ll.end_location.longitude, details := "Destination" } := by
  obtain ⟨stops, hst, hlen⟩ := stopsFor_ok landmarks_to_visit route h4 h5 h6
  refine ⟨_, gd_success_shape from_address to_address avoid_highways avoid_tolls avoid_ferries
    landmarks_to_visit travel_mode client_compute_routes tme resp route rest l0 ll stops
    h1 h2 h3 h7 h8 hst, ?_, ?_, ?_⟩
  · simp [List.length_cons, List.length_append, hlen]
  · rfl
  · exact getLast?_cons_append_singleton _ _ _

/-- C3 witness: a concrete successful call with 2 landmarks whose result has
4 waypoints, origin first and destination last. -/
theorem C3_waypoint_shape_witness :
    ∃ rr, get_directions "O" "D" false false false ["A", "B"] "DRIVE"
        (fun _ => Except.ok { routes := [{ duration_seconds := 100
                                           distance_meters := 1000
                                           description := "d"
                                           encoded_polyline := "p"
                                           optimized_intermediate_waypoint_index := [1, 0]
                                           legs := [mkLeg 1 2 3 4, mkLeg 5 6 7 8,
                                             mkLeg 9 10 11 12] }] }) =
        PyOutcome.ret (ToolReturn.pyDict rr)
      ∧ rr.ordered_waypoints.length = (["A", "B"] : List String).length + 2
      ∧ rr.ordered_waypoints.head? = some
          { address := "O", lat := (mkLeg 1 2 3 4).start_location.latitude
            lng := (mkLeg 1 2 3 4).start_location.longitude, details := "Starting Point" }
      ∧ rr.ordered_waypoints.getLast? = some
          { address := "D", lat := (mkLeg 9 10 11 12).end_location.latitude
            lng := (mkLeg 9 10 11 12).end_location.longitude, details := "Destination" } :=
  C3_waypoint_shape "O" "D" false false false ["A", "B"] "DRIVE" _
    RouteTravelMode.DRIVE _ _ [] (mkLeg 1 2 3 4) (mkLeg 9 10 11 12)
    (by decide) rfl rfl (by decide) (by decide) (by decide) rfl rfl

/-- C8: a call with an empty `landmarks_to_visit` list that finds a route
returns exactly the two entries origin-then-destination (no stop entries, no
permutation lookup, no error), and the request's optimize-waypoint-order flag
is set if and only if at least one landmark is supplied. -/
theorem C8_zero_landmarks (from_address to_address : String)
    (avoid_highways avoid_tolls avoid_ferries : Bool) (travel_mode : String)
    (client_compute_routes : ComputeRoutesRequest → Except String RoutesResponse)
    (tme : RouteTravelMode) (resp : RoutesResponse) (route : Route) (rest : List Route)
    (l0 ll : Leg)
    (h1 : RouteTravelMode.fromName (pyUpper travel_mode) = some tme)
    (h2 : client_compute_routes (mkComputeRoutesRequest from_address to_address
      avoid_highways avoid_tolls avoid_ferries [] tme) = Except.ok resp)
    (h3 : resp.routes = route :: rest)
    (h4 : route.optimized_intermediate_waypoint_index = [])
    (h7 : route.legs.head? = some l0) (h8 : route.legs.getLast? = some ll) :
    get_directions from_address to_address avoid_highways avoid_tolls avoid_ferries
      [] travel_mode client_compute_routes =
      PyOutcome.ret (ToolReturn.pyDict
        { description := route.description
          duration_text := format_duration route.duration_seconds
          distance_text := format_distance route.distance_meters
          encoded_polyline := route.encoded_polyline
          ordered_waypoints :=
            [{ address := from_address, lat := l0.start_location.latitude
               lng := l0.start_location.longitude, details := "Starting Point" },
             { address := to_address, lat := ll.end_location.latitude
               lng := ll.end_location.longitude, details := "Destination" }] })
    ∧ (mkComputeRoutesRequest from_address to_address avoid_highways avoid_tolls
        avoid_ferries [] tme).optimize_waypoint_order = false
    ∧ (∀ lmv2 : List String,
        (mkComputeRoutesRequest from_address to_address avoid_highways avoid_tolls
          avoid_ferries lmv2 tme).optimize_waypoint_order = true ↔ lmv2 ≠ []) := by
  have hst : stopsFor [] route = Except.ok [] := by
    unfold stopsFor
    rw [h4]
    simp
  refine ⟨?_, rfl, ?_⟩
  · rw [gd_success_shape from_address to_address avoid_highways avoid_tolls avoid_ferries
      [] travel_mode client_compute_routes tme resp route rest l0 ll []
      h1 h2 h3 h7 h8 hst]
    rfl
  · intro lmv2
    cases lmv2 with
    | nil => simp [mkComputeRoutesRequest]
    | cons a as => simp [mkComputeRoutesRequest]

/-- C8 witness: a concrete zero-landmark call returning exactly origin and
destination, with the optimize flag off for `[]` and on for a singleton. -/
theorem C8_zero_landmarks_witness :
    get_directions "O" "D" false false false [] "DRIVE"
      (fun _ => Except.ok { routes := [{ duration_seconds := 100
                                         distance_meters := 1000
                                         description := "d"
                                         encoded_polyline := "p"
                                         optimized_intermediate_waypoint_index := []
                                         legs := [mkLeg 1 2 3 4] }] }) =
      PyOutcome.ret (ToolReturn.pyDict
        { description := "d"
          duration_text := format_duration 100
          distance_text := format_distance 1000
          encoded_polyline := "p"
          ordered_waypoints :=
            [{ address := "O", lat := (mkLeg 1 2 3 4).start_location.latitude
               lng := (mkLeg 1 2 3 4).start_location.longitude, details := "Starting Point" },
             { address := "D", lat := (mkLeg 1 2 3 4).end_location.latitude
               lng := (mkLeg 1 2 3 4).end_location.longitude, details := "Destination" }] })
    ∧ (mkComputeRoutesRequest "O" "D" false false false [] RouteTravelMode.DRIVE).optimize_waypoint_order
        = false
    ∧ ((mkComputeRoutesRequest "O" "D" false false false ["A"]
        RouteTravelMode.DRIVE).optimize_waypoint_order = true ↔ (["A"] : List String) ≠ []) := by
  have h := C8_zero_landmarks "O" "D" false false false "DRIVE"
    (fun _ => Except.ok { routes := [{ duration_seconds := 100
                                       distance_meters := 1000
                                       description := "d"
                                       encoded_polyline := "p"
                                       optimized_intermediate_waypoint_index := []
                                       legs := [mkLeg 1 2 3 4] }] })
    RouteTravelMode.DRIVE _ _ [] (mkLeg 1 2 3 4) (mkLeg 1 2 3 4)
    (by decide) rfl rfl rfl rfl rfl
  exact ⟨h.1, h.2.1, h.2.2 ["A"]⟩

/-- C6: duration formatting maps integer seconds `s` to
`"{s // 3600} hr {(s % 3600) // 60} min"` (5425 s gives "1 hr 30 min"; no
carry into days, so 90000 s gives "25 hr 0 min"), and distance formatting
maps meters to kilometers rounded to one decimal place rendered as
`"{km} km"` (123456 m gives "123.5 km"; the rounded value is within half a
tenth of the exact one).  Both formatters are plain functions of their
integer input, hence deterministic. -/
theorem C6_formatting :
    (∀ s : Nat, format_duration s =
      Nat.repr (s / 3600) ++ " hr " ++ Nat.repr (s % 3600 / 60) ++ " min")
    ∧ format_duration 5425 = "1 hr 30 min"
    ∧ format_duration 90000 = "25 hr 0 min"
    ∧ format_distance 123456 = "123.5 km"
    ∧ (∀ m : Nat, format_distance m =
        Nat.repr (roundTenthsKm m / 10) ++ "." ++ Nat.repr (roundTenthsKm m % 10) ++ " km")
    ∧ (∀ m : Nat, ((100 : Int) * roundTenthsKm m - m).natAbs ≤ 50) := by
  refine ⟨fun s => rfl, rfl, rfl, rfl, fun m => rfl, fun m => ?_⟩
  unfold roundTenthsKm
  by_cases h1 : m % 100 < 50
  · rw [if_pos h1]; omega
  · rw [if_neg h1]
    by_cases h2 : 50 < m % 100
    · rw [if_pos h2]; omega
    · rw [if_neg h2]
      by_cases h3 : m / 100 % 2 = 0
      · rw [if_pos h3]; omega
      · rw [if_neg h3]; omega

/-- C5 counterexample: with an empty encoded polyline the map column shows
the "Could not decode route." error but does not discard the stale display
state — `map_data` is left in place (only the exception branch clears it),
refuting the claim that every decode failure clears `map_data`. -/
theorem C5_counterexample :
    renderMapColumn (some { encoded_polyline := "", ordered_waypoints := [] }) =
      (RenderOutcome.decodeFailedMsg,
        some { encoded_polyline := "", ordered_waypoints := [] })
    ∧ (renderMapColumn (some { encoded_polyline := "", ordered_waypoints := [] })).2 ≠ none :=
  ⟨rfl, by decide⟩

/-- C5 (amended): rendering failures never escape the map column
(`renderMapColumn` is a total function — the source wraps the block in
`try/except Exception`, so the chat flow cannot crash), and on failure it
shows an error; but the stale `map_data` is discarded only on the
exception path (malformed polyline).  When decoding succeeds with zero
points (empty polyline) the error is shown and `map_data` is left
unchanged. -/
theorem C5_render_error_isolation (d : MapData) :
    (∀ e, polylineDecode d.encoded_polyline = Except.error e →
      renderMapColumn (some d) = (RenderOutcome.errorMsg ("Error creating map: " ++ e), none))
    ∧ (polylineDecode d.encoded_polyline = Except.ok [] →
      renderMapColumn (some d) = (RenderOutcome.decodeFailedMsg, some d))
    ∧ (∀ p ps, polylineDecode d.encoded_polyline = Except.ok (p :: ps) →
      renderMapColumn (some d) = (RenderOutcome.mapShown (p :: ps), some d)) := by
  refine ⟨fun e he => ?_, fun he => ?_, fun p ps he => ?_⟩ <;> simp [renderMapColumn, he]

/-- C5 witness: a truncated polyline (`"_"`) raises inside the decoder, the
error is shown and the display state is cleared; an empty polyline shows the
decode error and keeps the state. -/
theorem C5_render_error_isolation_witness :
    renderMapColumn (some { encoded_polyline := "_", ordered_waypoints := [] }) =
      (RenderOutcome.errorMsg
        ("Error creating map: " ++ "IndexError: string index out of range"), none)
    ∧ renderMapColumn (some { encoded_polyline := "", ordered_waypoints := [] }) =
      (RenderOutcome.decodeFailedMsg,
        some { encoded_polyline := "", ordered_waypoints := [] }) :=
  ⟨(C5_render_error_isolation { encoded_polyline := "_", ordered_waypoints := [] }).1
      "IndexError: string index out of range" rfl,
   (C5_render_error_isolation { encoded_polyline := "", ordered_waypoints := [] }).2.1 rfl⟩

theorem hexDigit_safe (n : Nat) : urlQuerySafe (hexDigit n) = true := by
  rcases Nat.lt_or_ge n 16 with h | h
  · have hall : ∀ m, m < 16 → urlQuerySafe (hexDigit m) = true := by decide
    exact hall n h
  · obtain ⟨k, rfl⟩ : ∃ k, n = k + 16 := ⟨n - 16, by omega⟩
    rfl

theorem pctBytes_safe (bs : List Nat) (x : Char) (hx : x ∈ pctBytes bs) :
    urlQuerySafe x = true := by
  induction bs with
  | nil => simp [pctBytes] at hx
  | cons b rest ih =>
    simp only [pctBytes, List.mem_cons] at hx
    rcases hx with h | h | h | h
    · rw [h]; decide
    · rw [h]; exact hexDigit_safe _
    · rw [h]; exact hexDigit_safe _
    · exact ih h

theorem encChar_safe (c x : Char) (hx : x ∈ encChar c) : urlQuerySafe x = true := by
  unfold encChar at hx
  by_cases h : isUnreserved c
  · rw [if_pos h] at hx
    simp at hx
    rw [hx]
    simp [urlQuerySafe, h]
  · rw [if_neg h] at hx
    exact pctBytes_safe _ _ hx

theorem encodeChars_safe (s : List Char) (x : Char) (hx : x ∈ encodeChars s) :
    urlQuerySafe x = true := by
  induction s with
  | nil => simp [encodeChars] at hx
  | cons c cs ih =>
    simp only [encodeChars] at hx
    rcases List.mem_append.mp hx with h | h
    · exact encChar_safe c x h
    · exact ih h

theorem encodeChars_ne_amp (s : List Char) (c : Char) (hc : c ∈ encodeChars s) : c ≠ '&' := by
  intro he
  have hs := encodeChars_safe s c hc
  rw [he] at hs
  exact absurd hs (by decide)

theorem splitOnAmp_no_amp : ∀ (a : List Char), (∀ c ∈ a, c ≠ '&') → splitOnAmp a = [a] := by
  intro a
  induction a with
  | nil => intro _; rfl
  | cons c cs ih =>
    intro h
    have hc : ¬ (c = '&') := h c (List.mem_cons_self _ _)
    simp only [splitOnAmp, if_neg hc]
    rw [ih (fun x hx => h x (List.mem_cons_of_mem _ hx))]

theorem splitOnAmp_append (a b : List Char) (h : ∀ c ∈ a, c ≠ '&') :
    splitOnAmp (a ++ '&' :: b) = a :: splitOnAmp b := by
  induction a with
  | nil => simp [splitOnAmp]
  | cons c cs ih =>
    have hc : ¬ (c = '&') := h c (List.mem_cons_self _ _)
    simp only [List.cons_append, splitOnAmp, if_neg hc, List.append_eq]
    rw [ih (fun x hx => h x (List.mem_cons_of_mem _ hx))]

theorem splitKV_eq : ∀ (k v : List Char), (∀ c ∈ k, c ≠ '=') → splitKV (k ++ '=' :: v) = (k, v) := by
  intro k
  induction k with
  | nil => intro v _; simp [splitKV]
  | cons c cs ih =>
    intro v h
    have hc : ¬ (c = '=') := h c (List.mem_cons_self _ _)
    simp only [List.cons_append, splitKV, if_neg hc, List.append_eq]
    rw [ih v (fun x hx => h x (List.mem_cons_of_mem _ hx))]

theorem percentEncode_data (s : String) : (percentEncode s).data = encodeChars s.data := rfl

theorem seg_ne_amp (name : List Char) (s : List Char) (hn : ∀ c ∈ name, c ≠ '&') :
    ∀ c ∈ name ++ encodeChars s, c ≠ '&' := fun c hc =>
  (List.mem_append.mp hc).elim (hn c) (fun h => encodeChars_ne_amp s c h)

/-- C9 (spec-modelled): the Map URL Builder is a pure function (a plain Lean
function of its four inputs; no state, no network) whose output is an HTTPS
deep-link URL consisting of the fixed base followed by a query string that
splits at `&` into exactly the four parameters `origin`, `destination`,
`waypoints` and `travelmode` in that order; the `waypoints` value is the
percent-encoding of the addresses joined by the pipe separator, every value
is the percent-encoding of its input, and percent-encoded output contains
only unreserved characters and `%` escapes. -/
theorem C9_map_url_builder (origin destination : String) (waypoints : List String)
    (travelmode : String) :
    ∃ q : List Char,
      (buildMapUrl origin destination waypoints travelmode).data =
        ("https://www.google.com/maps/dir/?").data ++ q
      ∧ (splitOnAmp q).map splitKV =
          [(("origin").data, (percentEncode origin).data),
           (("destination").data, (percentEncode destination).data),
           (("waypoints").data, (percentEncode (String.intercalate "|" waypoints)).data),
           (("travelmode").data, (percentEncode travelmode).data)]
      ∧ (∀ s : String, ∀ c ∈ (percentEncode s).data, urlQuerySafe c = true) := by
  refine ⟨(("origin=").data ++ encodeChars origin.data) ++ '&' ::
      ((("destination=").data ++ encodeChars destination.data) ++ '&' ::
        ((("waypoints=").data ++ encodeChars (String.intercalate "|" waypoints).data) ++ '&' ::
          (("travelmode=").data ++ encodeChars travelmode.data))), ?_, ?_, ?_⟩
  · have e1 : ("https://www.google.com/maps/dir/?origin=").data =
        ("https://www.google.com/maps/dir/?").data ++ ("origin=").data := by decide
    have e2 : ("&destination=").data = '&' :: ("destination=").data := by decide
    have e3 : ("&waypoints=").data = '&' :: ("waypoints=").data := by decide
    have e4 : ("&travelmode=").data = '&' :: ("travelmode=").data := by decide
    simp only [buildMapUrl, String.data_append, percentEncode_data, e1, e2, e3, e4,
      List.append_assoc, List.cons_append, List.nil_append]
  · rw [splitOnAmp_append _ _ (seg_ne_amp _ _ (by decide))]
    rw [splitOnAmp_append _ _ (seg_ne_amp _ _ (by decide))]
    rw [splitOnAmp_append _ _ (seg_ne_amp _ _ (by decide))]
    rw [splitOnAmp_no_amp _ (seg_ne_amp _ _ (by decide))]
    simp only [List.map]
    have k1 : splitKV (("origin=").data ++ encodeChars origin.data) =
        (("origin").data, encodeChars origin.data) :=
      splitKV_eq ("origin").data (encodeChars origin.data) (by decide)
    have k2 : splitKV (("destination=").data ++ encodeChars destination.data) =
        (("destination").data, encodeChars destination.data) :=
      splitKV_eq ("destination").data (encodeChars destination.data) (by decide)
    have k3 : splitKV (("waypoints=").data ++
          encodeChars (String.intercalate "|" waypoints).data) =
        (("waypoints").data, encodeChars (String.intercalate "|" waypoints).data) :=
      splitKV_eq ("waypoints").data
        (encodeChars (String.intercalate "|" waypoints).data) (by decide)
    have k4 : splitKV (("travelmode=").data ++ encodeChars travelmode.data) =
        (("travelmode").data, encodeChars travelmode.data) :=
      splitKV_eq ("travelmode").data (encodeChars travelmode.data) (by decide)
    rw [k1, k2, k3, k4]
    rfl
  · intro s c hc
    exact encodeChars_safe s.data c hc
